import Mathlib

/-!
Verification development for the zendala visitor-access service.

The definitions below are a shallow embedding of the TypeScript server code:
  * `src/shared/schema.ts`      — data model (users, qr_codes, access_logs),
  * `src/server/storage.ts`     — `DatabaseStorage` operations,
  * `src/server/replitAuth.ts`  — local login strategy, JWT bearer middleware,
  * `src/unnamed/part_002`      — route handlers (the `registerRoutes` version
    with the expiry check and the password-then-code fallback; the handlers it
    shares with `src/server/routes.ts` — access-logs, users/create, the role
    middlewares — are identical in both files).

Timestamps are modelled as `Nat` milliseconds (`Date.now()`), the database as
explicit record lists threaded through each operation, and JavaScript string
truthiness (`if (x)`) as `truthy : Option String → Bool`.
-/

namespace Zendala

/-- JavaScript truthiness of an optional string: `undefined`/`null` and the
empty string are falsy, every other string is truthy. -/
def truthy : Option String → Bool
  | none => false
  | some s => s ≠ ""

/-- JavaScript `a || b` on optional strings: yields `a` when truthy, else `b`. -/
def jsOr (a b : Option String) : Option String :=
  if truthy a then a else b

/-- JavaScript `x || null` on an optional string (falsy values become null). -/
def orNull (a : Option String) : Option String :=
  if truthy a then a else none

/-- JavaScript `String.prototype.charAt`: the one-character string at the
index, or the empty string when the index is out of range. -/
def charAt (s : String) (i : Nat) : String :=
  match s.toList.get? i with
  | some c => String.mk [c]
  | none => ""

/-! ## Data model (`src/shared/schema.ts`)

`qr_codes.expires_at` and `qr_codes.access_password` are carried on the
record because `storage.ts` and the `part_002` validate handler read and
write them; the `insertQrCodeSchema` used to parse the request body is the
one of `src/shared/schema.ts`, which has no `expiresAt` key, so the parsed
insert payload never populates that field (Zod strips unknown keys). -/

/-- A row of the `users` table. -/
structure User where
  id : String
  username : Option String
  firstName : Option String
  lastName : Option String
  passwordHash : Option String
  role : String
  deriving Repr, DecidableEq

/-- A row of the `qr_codes` table. -/
structure QrCode where
  id : String
  code : String
  accessPassword : String
  visitorName : String
  visitorType : String
  description : Option String
  createdById : String
  isUsed : String
  usedAt : Option Nat
  expiresAt : Option Nat
  createdAt : Nat
  deriving Repr, DecidableEq

/-- A row of the `access_logs` table. -/
structure AccessLog where
  id : String
  qrCodeId : String
  guardId : String
  accessType : Option String
  vehiclePlates : Option String
  notes : Option String
  accessedAt : Nat
  deriving Repr, DecidableEq

/-- The database state seen by `DatabaseStorage`. -/
structure Db where
  users : List User
  qrCodes : List QrCode
  accessLogs : List AccessLog
  deriving Repr, DecidableEq

/-! ## Storage operations (`src/server/storage.ts`, class `DatabaseStorage`) -/

/-- `getUser(id)`: first row of `users` whose `id` matches. -/
def getUser (db : Db) (id : String) : Option User :=
  db.users.find? (fun u => u.id = id)

/-- `getUserByUsername(username)`. -/
def getUserByUsername (db : Db) (username : String) : Option User :=
  db.users.find? (fun u => u.username = some username)

/-- `getQrCodeByCode(code)`. -/
def getQrCodeByCode (db : Db) (code : String) : Option QrCode :=
  db.qrCodes.find? (fun q => q.code = code)

/-- `getQrCodeByPassword(password)`. -/
def getQrCodeByPassword (db : Db) (password : String) : Option QrCode :=
  db.qrCodes.find? (fun q => q.accessPassword = password)

/-- `updateQrCodeUsed(id)`: unconditional
`UPDATE qr_codes SET is_used = 'used', used_at = now() WHERE id = ?` —
there is no `WHERE is_used = 'unused'` clause, the row is overwritten
whatever its current state. -/
def updateQrCodeUsed (db : Db) (id : String) (now : Nat) : Db :=
  { db with qrCodes := db.qrCodes.map (fun q =>
      if q.id = id then { q with isUsed := "used", usedAt := some now } else q) }

/-- `markQrCodeAsExpired(id)`: unconditional
`UPDATE qr_codes SET is_used = 'expired' WHERE id = ?`. -/
def markQrCodeAsExpired (db : Db) (id : String) : Db :=
  { db with qrCodes := db.qrCodes.map (fun q =>
      if q.id = id then { q with isUsed := "expired" } else q) }

/-- Insert payload for `createAccessLog`. -/
structure InsertAccessLog where
  qrCodeId : String
  guardId : String
  accessType : Option String
  vehiclePlates : Option String
  notes : Option String
  deriving Repr, DecidableEq

/-- `createAccessLog(log)`: insert a row; the id and `accessedAt` default are
assigned by the database, modelled as explicit arguments. -/
def createAccessLog (db : Db) (data : InsertAccessLog) (newId : String)
    (now : Nat) : AccessLog × Db :=
  let log : AccessLog :=
    { id := newId, qrCodeId := data.qrCodeId, guardId := data.guardId
      accessType := data.accessType, vehiclePlates := data.vehiclePlates
      notes := data.notes, accessedAt := now }
  (log, { db with accessLogs := db.accessLogs ++ [log] })

/-- The parsed insert payload for a credential, i.e. the output type of
`insertQrCodeSchema.parse` plus the server-set `createdById`;
`storage.createQrCode` reads an `expiresAt` field from it. -/
structure InsertQrCode where
  visitorName : String
  visitorType : String
  description : Option String
  expiresAt : Option Nat
  createdById : String
  deriving Repr, DecidableEq

/-- `createQrCode(qrCodeData)`. The generated `randomUUID()` code, the
generated access password and the database-assigned row id are explicit
arguments. Faithful to the source: the local
`const expiresAt = new Date(Date.now() + 12 * 60 * 60 * 1000)` is computed
and then never used — the inserted row carries `qrCodeData.expiresAt`. -/
def createQrCode (db : Db) (qrCodeData : InsertQrCode) (code : String)
    (accessPassword : String) (newId : String) (now : Nat) : QrCode × Db :=
  let _expiresAt : Nat := now + 12 * 60 * 60 * 1000
  let qr : QrCode :=
    { id := newId, code := code, accessPassword := accessPassword
      visitorName := qrCodeData.visitorName
      visitorType := qrCodeData.visitorType
      description := qrCodeData.description
      expiresAt := qrCodeData.expiresAt
      createdById := qrCodeData.createdById
      isUsed := "unused", usedAt := none, createdAt := now }
  (qr, { db with qrCodes := db.qrCodes ++ [qr] })

/-! ## Password generator (`DatabaseStorage.generateAccessPassword`) -/

/-- The letter alphabet of the generator. -/
def lettersAlphabet : String := "ABCDEFGHIJKLMNOPQRSTUVWXYZ"

/-- The digit alphabet of the generator. -/
def numbersAlphabet : String := "0123456789"

/-- `generateAccessPassword()`: four `letters.charAt(floor(random*26))`
picks, a hyphen, four `numbers.charAt(floor(random*10))` picks. The eight
`Math.floor(Math.random() * alphabet.length)` results are the arguments
`l0..l3, n0..n3` (each call yields a natural below the alphabet length). -/
def generateAccessPassword (l0 l1 l2 l3 n0 n1 n2 n3 : Nat) : String :=
  charAt lettersAlphabet l0 ++ charAt lettersAlphabet l1 ++
  charAt lettersAlphabet l2 ++ charAt lettersAlphabet l3 ++ "-" ++
  charAt numbersAlphabet n0 ++ charAt numbersAlphabet n1 ++
  charAt numbersAlphabet n2 ++ charAt numbersAlphabet n3

/-- Is the character an uppercase letter A–Z? -/
def isUpperAZ (c : Char) : Bool := 'A' ≤ c && c ≤ 'Z'

/-- Is the character a digit 0–9? -/
def isDigit09 (c : Char) : Bool := '0' ≤ c && c ≤ '9'

/-- Decidable rendering of the regex `^[A-Z]\x7b4\x7d-[0-9]\x7b4\x7d$`:
exactly four uppercase letters, a hyphen, four digits. -/
def passwordFormatOk (s : String) : Bool :=
  match s.toList with
  | [a, b, c, d, h, w, x, y, z] =>
    isUpperAZ a && isUpperAZ b && isUpperAZ c && isUpperAZ d &&
    h = '-' && isDigit09 w && isDigit09 x && isDigit09 y && isDigit09 z
  | _ => false

/-! ## SHA-256

`storage.createLocalUser`, `storage.resetUserPassword` and the local login
strategy all call Node's `crypto.createHash("sha256").update(s).digest("hex")`
on the UTF-8 bytes of the password. The hash is embedded executably over `Nat`
(words mod `2 ^ 32`) following FIPS 180-4, so the stored-hash claims are about
the actual function, not an abstraction. -/

/-- `2 ^ 32`, the word modulus. -/
def w32 : Nat := 4294967296

/-- Right rotation of a 32-bit word by `n` (arithmetic formulation). -/
def rotr32 (n x : Nat) : Nat := (x / 2 ^ n + x % 2 ^ n * 2 ^ (32 - n)) % w32

/-- Logical right shift of a 32-bit word. -/
def shr32 (n x : Nat) : Nat := x / 2 ^ n

/-- Bitwise complement of a 32-bit word. -/
def not32 (x : Nat) : Nat := Nat.xor x (w32 - 1)

/-- SHA-256 Σ₀. -/
def bigSigma0 (x : Nat) : Nat :=
  Nat.xor (Nat.xor (rotr32 2 x) (rotr32 13 x)) (rotr32 22 x)

/-- SHA-256 Σ₁. -/
def bigSigma1 (x : Nat) : Nat :=
  Nat.xor (Nat.xor (rotr32 6 x) (rotr32 11 x)) (rotr32 25 x)

/-- SHA-256 σ₀. -/
def smallSigma0 (x : Nat) : Nat :=
  Nat.xor (Nat.xor (rotr32 7 x) (rotr32 18 x)) (shr32 3 x)

/-- SHA-256 σ₁. -/
def smallSigma1 (x : Nat) : Nat :=
  Nat.xor (Nat.xor (rotr32 17 x) (rotr32 19 x)) (shr32 10 x)

/-- SHA-256 Ch. -/
def chFn (x y z : Nat) : Nat :=
  Nat.xor (Nat.land x y) (Nat.land (not32 x) z)

/-- SHA-256 Maj. -/
def majFn (x y z : Nat) : Nat :=
  Nat.xor (Nat.xor (Nat.land x y) (Nat.land x z)) (Nat.land y z)

/-- The 64 SHA-256 round constants. -/
def sha256K : List Nat :=
  [1116352408, 1899447441, 3049323471,
   3921009573, 961987163, 1508970993,
   2453635748, 2870763221, 3624381080,
   310598401, 607225278, 1426881987,
   1925078388, 2162078206, 2614888103,
   3248222580, 3835390401, 4022224774,
   264347078, 604807628, 770255983,
   1249150122, 1555081692, 1996064986,
   2554220882, 2821834349, 2952996808,
   3210313671, 3336571891, 3584528711,
   113926993, 338241895, 666307205,
   773529912, 1294757372, 1396182291,
   1695183700, 1986661051, 2177026350,
   2456956037, 2730485921, 2820302411,
   3259730800, 3345764771, 3516065817,
   3600352804, 4094571909, 275423344,
   430227734, 506948616, 659060556,
   883997877, 958139571, 1322822218,
   1537002063, 1747873779, 1955562222,
   2024104815, 2227730452, 2361852424,
   2428436474, 2756734187, 3204031479,
   3329325298]

/-- The SHA-256 initial hash value. -/
def sha256H0 : List Nat :=
  [1779033703, 3144134277, 1013904242,
   2773480762, 1359893119, 2600822924,
   528734635, 1541459225]

/-- `n` big-endian bytes of a natural number. -/
def beBytes : Nat → Nat → List Nat
  | 0, _ => []
  | n + 1, v => beBytes n (v / 256) ++ [v % 256]

/-- SHA-256 padding of a byte message: `0x80`, zeros, 64-bit bit length. -/
def padMessage (msg : List Nat) : List Nat :=
  let l := msg.length
  let k := (64 + 56 - (l + 1) % 64) % 64
  msg ++ [128] ++ List.replicate k 0 ++ beBytes 8 (l * 8)

/-- Big-endian 32-bit words of a byte list. -/
def bytesToWords : List Nat → List Nat
  | b0 :: b1 :: b2 :: b3 :: rest =>
    (((b0 * 256 + b1) * 256 + b2) * 256 + b3) :: bytesToWords rest
  | _ => []

/-- Message-schedule extension of the 16 block words to 64 words. -/
def extendWords (ws : List Nat) : List Nat :=
  (List.range 48).foldl (fun acc t =>
    acc ++ [(acc.getD t 0 + smallSigma0 (acc.getD (t + 1) 0) +
             acc.getD (t + 9) 0 + smallSigma1 (acc.getD (t + 14) 0)) % w32]) ws

/-- The working-variable tuple of the compression loop. -/
abbrev ShaState := Nat × Nat × Nat × Nat × Nat × Nat × Nat × Nat

/-- One 64-byte block compressed into the running hash. -/
def compressBlock (h : List Nat) (block : List Nat) : List Nat :=
  let ws := extendWords (bytesToWords block)
  let final : ShaState := (List.range 64).foldl
    (fun (s : ShaState) i =>
      let (a, b, c, d, e, f, g, hh) := s
      let t1 := (hh + bigSigma1 e + chFn e f g +
                 sha256K.getD i 0 + ws.getD i 0) % w32
      let t2 := (bigSigma0 a + majFn a b c) % w32
      ((t1 + t2) % w32, a, b, c, (d + t1) % w32, e, f, g))
    (h.getD 0 0, h.getD 1 0, h.getD 2 0, h.getD 3 0,
     h.getD 4 0, h.getD 5 0, h.getD 6 0, h.getD 7 0)
  match final with
  | (a, b, c, d, e, f, g, hh) =>
    [(h.getD 0 0 + a) % w32, (h.getD 1 0 + b) % w32,
     (h.getD 2 0 + c) % w32, (h.getD 3 0 + d) % w32,
     (h.getD 4 0 + e) % w32, (h.getD 5 0 + f) % w32,
     (h.getD 6 0 + g) % w32, (h.getD 7 0 + hh) % w32]

/-- Fold the padded message through the compression function, block by
block; the fuel is the number of 64-byte blocks. -/
def sha256Chunks : Nat → List Nat → List Nat → List Nat
  | 0, h, _ => h
  | fuel + 1, h, bytes =>
    sha256Chunks fuel (compressBlock h (bytes.take 64)) (bytes.drop 64)

/-- SHA-256 digest (eight 32-bit words) of a byte message. -/
def sha256Words (msg : List Nat) : List Nat :=
  let padded := padMessage msg
  sha256Chunks (padded.length / 64) sha256H0 padded

/-- Lowercase hex digits. -/
def hexDigits : String := "0123456789abcdef"

/-- The hex character of a nibble. -/
def nibbleChar (n : Nat) : Char := hexDigits.toList.getD n '0'

/-- Eight lowercase hex characters of a 32-bit word, most significant first. -/
def wordHex (x : Nat) : List Char :=
  [nibbleChar (x / 2 ^ 28 % 16), nibbleChar (x / 2 ^ 24 % 16),
   nibbleChar (x / 2 ^ 20 % 16), nibbleChar (x / 2 ^ 16 % 16),
   nibbleChar (x / 2 ^ 12 % 16), nibbleChar (x / 2 ^ 8 % 16),
   nibbleChar (x / 2 ^ 4 % 16), nibbleChar (x % 16)]

/-- UTF-8 bytes of a Unicode code point. -/
def utf8Bytes (n : Nat) : List Nat :=
  if n < 0x80 then [n]
  else if n < 0x800 then
    [0xC0 + n / 64, 0x80 + n % 64]
  else if n < 0x10000 then
    [0xE0 + n / 4096, 0x80 + n / 64 % 64, 0x80 + n % 64]
  else
    [0xF0 + n / 262144, 0x80 + n / 4096 % 64, 0x80 + n / 64 % 64, 0x80 + n % 64]

/-- UTF-8 bytes of a string (what `hash.update(s)` consumes). -/
def strBytes (s : String) : List Nat :=
  s.toList.flatMap (fun c => utf8Bytes c.toNat)

/-- `crypto.createHash("sha256").update(s).digest("hex")`. -/
def sha256hex (s : String) : String :=
  String.mk ((sha256Words (strBytes s)).foldr (fun wd acc => wordHex wd ++ acc) [])

/-! ## Local users (`src/server/storage.ts` 71–99) -/

/-- `createLocalUser(data)`: stores `sha256(data.password)` as hex in
`passwordHash`; the database-assigned id is an explicit argument. -/
def createLocalUser (db : Db) (username firstName lastName password role : String)
    (newId : String) : User × Db :=
  let passwordHash := sha256hex password
  let user : User :=
    { id := newId, username := some username, firstName := some firstName
      lastName := some lastName, passwordHash := some passwordHash, role := role }
  (user, { db with users := db.users ++ [user] })

/-- `resetUserPassword(userId, newPassword)`: overwrites `passwordHash` with
`sha256(newPassword)` for the matching row and returns the updated row. -/
def resetUserPassword (db : Db) (userId newPassword : String) : Option User × Db :=
  let users := db.users.map (fun u =>
    if u.id = userId then { u with passwordHash := some (sha256hex newPassword) } else u)
  (users.find? (fun u => u.id = userId), { db with users := users })

/-! ## Authentication (`src/server/replitAuth.ts`) -/

/-- The payload of the JWT minted by `generateJWT` / checked by `jwt.verify`:
id, username and role claims. `sigValid` models whether `jwt.verify` accepts
the token (signature made with the server secret and not expired). -/
structure Jwt where
  id : String
  username : Option String
  role : String
  sigValid : Bool
  deriving Repr, DecidableEq

/-- `generateJWT(userId, username, role)`: a token signed with the server
secret (so `sigValid`), carrying the three claims. -/
def generateJWT (userId : String) (username : Option String) (role : String) : Jwt :=
  { id := userId, username := username, role := role, sigValid := true }

/-- Outcome of the passport LocalStrategy verify callback. -/
inductive VerifyOutcome where
  | fail (message : String)
  | ok (id : String) (username : Option String) (role : String)
  deriving Repr, DecidableEq

/-- The LocalStrategy verify callback (replitAuth.ts 111–140): look the user
up by username, require a stored hash, compare `sha256(password)` with it;
each failure carries its own message. -/
def localVerify (db : Db) (username password : String) : VerifyOutcome :=
  match getUserByUsername db username with
  | none => .fail "Usuario no encontrado"
  | some user =>
    match user.passwordHash with
    | none => .fail "Usuario no válido"
    | some stored =>
      if sha256hex password ≠ stored then .fail "Contraseña incorrecta"
      else .ok user.id user.username user.role

/-- Response of `POST /api/login-local`. -/
structure LoginResp where
  status : Nat
  message : Option String
  token : Option Jwt
  deriving Repr, DecidableEq

/-- `POST /api/login-local` (replitAuth.ts 179–215): on verify failure, 401
with the strategy's message (`info?.message || "Authentication failed"`); on
success, 200 with a freshly minted JWT. -/
def loginLocalHandler (db : Db) (username password : String) : LoginResp :=
  match localVerify db username password with
  | .fail m => { status := 401, message := some m, token := none }
  | .ok id uname role =>
    { status := 200, message := none, token := some (generateJWT id uname role) }

/-- The `req.user` object downstream handlers see: OIDC sessions carry
`claims.sub`, local/bearer identities carry `id`, and the bearer path also
attaches the token's `username` and `role`. -/
structure AuthedUser where
  claimsSub : Option String
  id : Option String
  username : Option String
  role : Option String
  deriving Repr, DecidableEq

/-- Result of the `isAuthenticated` middleware. -/
inductive AuthResult where
  | unauthorized
  | attached (user : AuthedUser)
  deriving Repr, DecidableEq

/-- The bearer branch of `isAuthenticated` (replitAuth.ts 267–282): when an
`Authorization: Bearer` header is present, `jwt.verify` decides alone — on
success the decoded `{id, username, role}` becomes `req.user`, on failure the
request is rejected with no fallback to the session path. -/
def isAuthenticatedBearer (tok : Jwt) : AuthResult :=
  if tok.sigValid then
    .attached { claimsSub := none, id := some tok.id
                username := tok.username, role := some tok.role }
  else .unauthorized

/-! ## Role middlewares (`routes.ts` / `part_002` lines 8–48) -/

/-- Result of a role middleware. -/
inductive MwResult where
  | unauthorized
  | forbidden
  | next
  deriving Repr, DecidableEq

/-- `req.user?.claims?.sub || req.user?.id`. -/
def middlewareUserId (u : AuthedUser) : Option String :=
  jsOr u.claimsSub u.id

/-- `isAdmin`: resolve the user id, fetch the user from storage, require the
stored role to be `administrador`. -/
def isAdminMw (db : Db) (u : AuthedUser) : MwResult :=
  let userId := middlewareUserId u
  if ¬ truthy userId then .unauthorized
  else
    let user := getUser db (userId.getD "")
    if user.map User.role ≠ some "administrador" then .forbidden
    else .next

/-- `isVecinoOrAdmin`: stored role must be `vecino` or `administrador`. -/
def isVecinoOrAdminMw (db : Db) (u : AuthedUser) : MwResult :=
  let userId := middlewareUserId u
  if ¬ truthy userId then .unauthorized
  else
    let user := getUser db (userId.getD "")
    if user.map User.role ≠ some "vecino" ∧ user.map User.role ≠ some "administrador" then
      .forbidden
    else .next

/-- `isGuardOrAdmin`: stored role must be `guardia` or `administrador`. -/
def isGuardOrAdminMw (db : Db) (u : AuthedUser) : MwResult :=
  let userId := middlewareUserId u
  if ¬ truthy userId then .unauthorized
  else
    let user := getUser db (userId.getD "")
    if user.map User.role ≠ some "guardia" ∧ user.map User.role ≠ some "administrador" then
      .forbidden
    else .next

/-- A protected bearer request end to end: `isAuthenticated` (bearer branch)
then a role middleware. -/
def bearerDecision (db : Db) (mw : Db → AuthedUser → MwResult) (tok : Jwt) : MwResult :=
  match isAuthenticatedBearer tok with
  | .unauthorized => .unauthorized
  | .attached u => mw db u

/-! ## Route handlers (`src/unnamed/part_002`; identical in
`src/server/routes.ts` except where noted) -/

/-- The request body of `POST /api/qr-codes` as far as
`insertQrCodeSchema.parse` looks at it. -/
structure QrBody where
  visitorName : Option String
  visitorType : Option String
  description : Option String
  deriving Repr, DecidableEq

/-- `insertQrCodeSchema.parse(req.body)` plus the server-set `createdById`
(`src/shared/schema.ts` 44–51): `visitor_name` and `visitor_type` are
not-null varchar columns, so Zod requires them to be present strings (any
string, the empty string included); `visitor_type` is declared
`varchar(\x7b length: 50 \x7d)`, from which `createInsertSchema` derives
`z.string().max(50)`, so a visitor type longer than 50 characters is a
`ZodError`; `visitor_name` and `description` carry no length, so no bound;
`description` is optional; the schema has no `expiresAt` key, so the parsed
payload never carries one (unknown body keys are stripped). A parse failure
is the thrown `ZodError`. -/
def parseInsertQrCode (body : QrBody) (createdById : String) : Option InsertQrCode :=
  match body.visitorName, body.visitorType with
  | some n, some t =>
    if t.length ≤ 50 then
      some { visitorName := n, visitorType := t, description := body.description
             expiresAt := none, createdById := createdById }
    else none
  | _, _ => none

/-- Response of `POST /api/qr-codes`. -/
structure QrCreateResp where
  status : Nat
  qr : Option QrCode
  deriving Repr, DecidableEq

/-- `POST /api/qr-codes` (`part_002` 93–118): parse the body — `ZodError`
becomes a 400 — then `storage.createQrCode` and 200 with the row. -/
def qrCodesPostHandler (db : Db) (userId : String) (body : QrBody)
    (code accessPassword newId : String) (now : Nat) : QrCreateResp × Db :=
  match parseInsertQrCode body userId with
  | none => ({ status := 400, qr := none }, db)
  | some data =>
    let (qr, db2) := createQrCode db data code accessPassword newId now
    ({ status := 200, qr := some qr }, db2)

/-- Response of `POST /api/qr-codes/validate`. -/
structure ValidateResp where
  status : Nat
  valid : Option Bool
  message : Option String
  qrId : Option String
  deriving Repr, DecidableEq

/-- `new Date(qrCode.expiresAt).getTime() < new Date().getTime()` guarded by
`if (qrCode.expiresAt)`: expired iff the deadline exists and now is strictly
past it. -/
def validateExpiredNow (now : Nat) (qrCode : QrCode) : Bool :=
  match qrCode.expiresAt with
  | some t => now > t
  | none => false

/-- The state re-check of the validate handler after the expiry check:
a non-`unused` row is rejected with the used/expired message, an `unused`
row is accepted. -/
def validateStateCheck (db : Db) (qrCode : QrCode) : ValidateResp × Db :=
  if qrCode.isUsed ≠ "unused" then
    ({ status := 200, valid := some false
       message := some (if qrCode.isUsed = "used" then "Este acceso ya ha sido utilizado"
                        else "Este código ha expirado")
       qrId := none }, db)
  else
    ({ status := 200, valid := some true, message := none, qrId := some qrCode.id }, db)

/-- The tail of the validate handler after the lookup (`part_002` 159–210):
not-found, the expiry check with the opportunistic `markQrCodeAsExpired`
(only when the row is still `unused`), then the state check. -/
def respondQr (db : Db) (now : Nat) (found : Option QrCode) : ValidateResp × Db :=
  match found with
  | none =>
    ({ status := 200, valid := some false
       message := some "Contraseña o código no encontrado", qrId := none }, db)
  | some qrCode =>
    if validateExpiredNow now qrCode then
      let db2 := if qrCode.isUsed = "unused" then markQrCodeAsExpired db qrCode.id else db
      ({ status := 200, valid := some false
         message := some "Este código ha expirado (pasaron más de 12 horas)"
         qrId := none }, db2)
    else validateStateCheck db qrCode

/-- `POST /api/qr-codes/validate` (`part_002` 132–215): with a truthy
`password`, trim it, uppercase it, look it up as an access password, and on a
miss retry the trimmed original-case input as a QR code; with a truthy `code`
only, look it up as a QR code; with neither, 400. (The `src/server/routes.ts`
copy of this handler lacks the password-to-code fallback and the expiry
check.) -/
def validateHandler (db : Db) (now : Nat) (password code : Option String) :
    ValidateResp × Db :=
  if truthy password then
    let passwordStr := (password.getD "").trim
    let passwordUpperCase := passwordStr.toUpper
    let qrCode :=
      match getQrCodeByPassword db passwordUpperCase with
      | some q => some q
      | none => getQrCodeByCode db passwordStr
    respondQr db now qrCode
  else if truthy code then
    respondQr db now (getQrCodeByCode db ((code.getD "").trim))
  else
    ({ status := 400, valid := none
       message := some "Password or code is required", qrId := none }, db)

/-- The request body of `POST /api/access-logs`. -/
structure ConfirmBody where
  qrCodeId : Option String
  accessType : Option String
  vehiclePlates : Option String
  notes : Option String
  deriving Repr, DecidableEq

/-- Response of `POST /api/access-logs`. -/
structure ConfirmResp where
  status : Nat
  log : Option AccessLog
  deriving Repr, DecidableEq

/-- `POST /api/access-logs` (`part_002` 217–246, identical in `routes.ts`
175–204): after the 400 guard on a falsy `qrCodeId`, it calls
`updateQrCodeUsed` unconditionally — no re-check of the credential's state or
deadline — and then appends the access log and answers 200. -/
def accessLogsHandler (db : Db) (guardId : String) (body : ConfirmBody)
    (newLogId : String) (now : Nat) : ConfirmResp × Db :=
  if ¬ truthy body.qrCodeId then ({ status := 400, log := none }, db)
  else
    let qrCodeId := body.qrCodeId.getD ""
    let db1 := updateQrCodeUsed db qrCodeId now
    let (log, db2) := createAccessLog db1
      { qrCodeId := qrCodeId, guardId := guardId
        accessType := orNull body.accessType
        vehiclePlates := orNull body.vehiclePlates
        notes := orNull body.notes } newLogId now
    ({ status := 200, log := some log }, db2)

/-- The request body of `POST /api/users/create`. -/
structure CreateUserBody where
  username : Option String
  firstName : Option String
  lastName : Option String
  password : Option String
  adminPassword : Option String
  role : Option String
  deriving Repr, DecidableEq

/-- Response of `POST /api/users/create`. -/
structure CreateUserResp where
  status : Nat
  createdId : Option String
  deriving Repr, DecidableEq

/-- `POST /api/users/create` (`part_002` 269–310, identical in `routes.ts`
227–268): registered with no `isAuthenticated`/role middleware. Gate order:
`adminPassword` must be truthy and equal to `process.env.ADMIN_PASSWORD`
(else 401); the five fields must all be truthy (else 400); the role must be
one of the three (else 400); the username must be free (else 400); then
`createLocalUser` and 200. -/
def usersCreateHandler (db : Db) (envAdminPassword : Option String)
    (body : CreateUserBody) (newId : String) : CreateUserResp × Db :=
  if ¬ truthy body.adminPassword ∨ body.adminPassword ≠ envAdminPassword then
    ({ status := 401, createdId := none }, db)
  else if ¬ (truthy body.username ∧ truthy body.firstName ∧ truthy body.lastName ∧
             truthy body.password ∧ truthy body.role) then
    ({ status := 400, createdId := none }, db)
  else if ¬ (body.role = some "vecino" ∨ body.role = some "guardia" ∨
             body.role = some "administrador") then
    ({ status := 400, createdId := none }, db)
  else
    match getUserByUsername db (body.username.getD "") with
    | some _ => ({ status := 400, createdId := none }, db)
    | none =>
      let (user, db2) := createLocalUser db (body.username.getD "")
        (body.firstName.getD "") (body.lastName.getD "") (body.password.getD "")
        (body.role.getD "") newId
      ({ status := 200, createdId := some user.id }, db2)

/-! ## Concrete fixtures used by witnesses and counterexamples -/

/-- A credential already consumed (state `used`). -/
def qrUsedFixture : QrCode :=
  { id := "q1", code := "code-1", accessPassword := "ABCD-1234"
    visitorName := "Ana Ruiz", visitorType := "visita", description := none
    createdById := "u1", isUsed := "used", usedAt := some 5
    expiresAt := some 43200000, createdAt := 0 }

/-- A credential in the terminal state `expired`. -/
def qrExpiredFixture : QrCode :=
  { qrUsedFixture with
    id := "q2"
    code := "code-2"
    accessPassword := "EFGH-5678"
    isUsed := "expired"
    usedAt := none }

/-- A fresh, unconsumed credential. -/
def qrUnusedFixture : QrCode :=
  { qrUsedFixture with
    id := "q3"
    code := "code-3"
    accessPassword := "IJKL-9012"
    isUsed := "unused"
    usedAt := none }

/-- The empty database. -/
def emptyDb : Db := { users := [], qrCodes := [], accessLogs := [] }

/-- A database holding only the consumed credential. -/
def usedDb : Db := { users := [], qrCodes := [qrUsedFixture], accessLogs := [] }

/-- A database holding only the expired credential. -/
def expiredDb : Db := { users := [], qrCodes := [qrExpiredFixture], accessLogs := [] }

/-- A database holding only the unconsumed credential. -/
def unusedDb : Db := { users := [], qrCodes := [qrUnusedFixture], accessLogs := [] }

/-- A local account whose stored hash is the SHA-256 of "secret". -/
def aliceUser : User :=
  { id := "u1", username := some "alice", firstName := some "Alice"
    lastName := some "R", passwordHash := some (sha256hex "secret")
    role := "vecino" }

/-- A database holding only the local account. -/
def loginDb : Db := { users := [aliceUser], qrCodes := [], accessLogs := [] }

/-- A confirm request body for the given credential id. -/
def confirmBodyFor (qrId : String) : ConfirmBody :=
  { qrCodeId := some qrId, accessType := some "peatonal"
    vehiclePlates := none, notes := none }

/-- The row persisted by the issue handler for the witness request of the
schema claim. -/
def anaQr : QrCode :=
  { id := "q1", code := "code-1", accessPassword := "ABCD-1234"
    visitorName := "Ana Ruiz", visitorType := "visita", description := none
    createdById := "u1", isUsed := "unused", usedAt := none
    expiresAt := none, createdAt := 0 }

/-! ## Theorems -/

/-- Claim C1. The claim states that a confirm call on a credential already
`used` or `expired`, or past its deadline, fails with AlreadyConsumed or
Expired and appends no AccessEvent. The code does the opposite: at the
failing input — confirm on the already-consumed credential `q1`, past its
deadline (now = 99999999 > 43200000) — the handler answers 200, appends an
access event, and overwrites the row, resetting `usedAt` from 5 to the new
time (`updateQrCodeUsed` carries no state condition and the handler never
re-checks). -/
theorem claim_C1_confirm_no_recheck :
    (accessLogsHandler usedDb "g1" (confirmBodyFor "q1") "log1" 99999999).1.status = 200 ∧
    ((accessLogsHandler usedDb "g1" (confirmBodyFor "q1") "log1" 99999999).2.accessLogs.map
      AccessLog.qrCodeId) = ["q1"] ∧
    ((accessLogsHandler usedDb "g1" (confirmBodyFor "q1") "log1" 99999999).2.qrCodes.map
      (fun q => (q.isUsed, q.usedAt))) = [("used", some 99999999)] := by
  decide

/-- Claim C2. The claim states `used` and `expired` are terminal. The code
violates it: confirming the credential `q2`, whose state is `expired`,
rewrites its state to `used` — the transition expired → used, which the
claim forbids, happens because `updateQrCodeUsed` is an unconditional
update. -/
theorem claim_C2_terminal_state_overwritten :
    qrExpiredFixture.isUsed = "expired" ∧
    ((accessLogsHandler expiredDb "g1" (confirmBodyFor "q2") "log1" 50).2.qrCodes.map
      QrCode.isUsed) = ["used"] := by
  decide

/-- Claim C3. The claim states the stored expiry deadline equals issue time
plus 12 hours, computed server-side. In `createQrCode` that value is
computed (`Date.now() + 12 * 60 * 60 * 1000`) but never used: the inserted
row carries `qrCodeData.expiresAt`, which the insert schema of
`src/shared/schema.ts` never populates — so a credential issued at time 0
is stored with no deadline at all, not with `some 43200000`. -/
theorem claim_C3_expiry_is_dead_code :
    (qrCodesPostHandler emptyDb "u1"
      { visitorName := some "Ana Ruiz", visitorType := some "visita", description := none }
      "code-1" "ABCD-1234" "q1" 0).1.status = 200 ∧
    ((qrCodesPostHandler emptyDb "u1"
      { visitorName := some "Ana Ruiz", visitorType := some "visita", description := none }
      "code-1" "ABCD-1234" "q1" 0).2.qrCodes.map QrCode.expiresAt) = [none] ∧
    (none : Option Nat) ≠ some (0 + 12 * 60 * 60 * 1000) := by
  decide

/-- A one-character string all of whose characters satisfy `p` is
`String.mk [c]` for a single `c` satisfying `p`. -/
theorem exists_char_of_spec (s : String) (p : Char → Bool)
    (h1 : s.data.length = 1) (h2 : s.data.all p = true) :
    ∃ c, s = String.mk [c] ∧ p c = true := by
  obtain ⟨data⟩ := s
  match data, h1 with
  | [c], _ =>
    refine ⟨c, rfl, ?_⟩
    simpa using h2

/-- Each in-range pick from the letter alphabet is a single uppercase
letter. -/
theorem charAt_letters_spec : ∀ k, k < 26 →
    (charAt lettersAlphabet k).data.length = 1 ∧
    (charAt lettersAlphabet k).data.all isUpperAZ = true := by
  decide

/-- Each in-range pick from the digit alphabet is a single digit. -/
theorem charAt_numbers_spec : ∀ k, k < 10 →
    (charAt numbersAlphabet k).data.length = 1 ∧
    (charAt numbersAlphabet k).data.all isDigit09 = true := by
  decide

/-- Claim C7, counterexample: the generated value at the concrete picks
(0,1,2,3 / 0,1,2,3) is `"ABCD-0123"`, a string of length 9 — not the
8-character value the claim states — though it does match
`^[A-Z]\x7b4\x7d-[0-9]\x7b4\x7d$`. -/
theorem claim_C7_counterexample :
    generateAccessPassword 0 1 2 3 0 1 2 3 = "ABCD-0123" ∧
    (generateAccessPassword 0 1 2 3 0 1 2 3).length ≠ 8 ∧
    passwordFormatOk (generateAccessPassword 0 1 2 3 0 1 2 3) = true := by
  decide

/-- Claim C7, amended: every string returned by the password generator is a
9-character value matching `^[A-Z]\x7b4\x7d-[0-9]\x7b4\x7d$` — four
uppercase letters, a hyphen, four digits. The hypotheses are the ranges of
the eight `Math.floor(Math.random() * alphabet.length)` results. -/
theorem claim_C7_password_format (l0 l1 l2 l3 n0 n1 n2 n3 : Nat)
    (h0 : l0 < 26) (h1 : l1 < 26) (h2 : l2 < 26) (h3 : l3 < 26)
    (h4 : n0 < 10) (h5 : n1 < 10) (h6 : n2 < 10) (h7 : n3 < 10) :
    (generateAccessPassword l0 l1 l2 l3 n0 n1 n2 n3).length = 9 ∧
    passwordFormatOk (generateAccessPassword l0 l1 l2 l3 n0 n1 n2 n3) = true := by
  obtain ⟨c0, hc0, hu0⟩ :=
    exists_char_of_spec _ _ (charAt_letters_spec l0 h0).1 (charAt_letters_spec l0 h0).2
  obtain ⟨c1, hc1, hu1⟩ :=
    exists_char_of_spec _ _ (charAt_letters_spec l1 h1).1 (charAt_letters_spec l1 h1).2
  obtain ⟨c2, hc2, hu2⟩ :=
    exists_char_of_spec _ _ (charAt_letters_spec l2 h2).1 (charAt_letters_spec l2 h2).2
  obtain ⟨c3, hc3, hu3⟩ :=
    exists_char_of_spec _ _ (charAt_letters_spec l3 h3).1 (charAt_letters_spec l3 h3).2
  obtain ⟨d0, hd0, hv0⟩ :=
    exists_char_of_spec _ _ (charAt_numbers_spec n0 h4).1 (charAt_numbers_spec n0 h4).2
  obtain ⟨d1, hd1, hv1⟩ :=
    exists_char_of_spec _ _ (charAt_numbers_spec n1 h5).1 (charAt_numbers_spec n1 h5).2
  obtain ⟨d2, hd2, hv2⟩ :=
    exists_char_of_spec _ _ (charAt_numbers_spec n2 h6).1 (charAt_numbers_spec n2 h6).2
  obtain ⟨d3, hd3, hv3⟩ :=
    exists_char_of_spec _ _ (charAt_numbers_spec n3 h7).1 (charAt_numbers_spec n3 h7).2
  have hgen : generateAccessPassword l0 l1 l2 l3 n0 n1 n2 n3 =
      String.mk [c0, c1, c2, c3, '-', d0, d1, d2, d3] := by
    unfold generateAccessPassword
    rw [hc0, hc1, hc2, hc3, hd0, hd1, hd2, hd3]
    apply String.ext
    simp [String.data_append]
  rw [hgen]
  refine ⟨rfl, ?_⟩
  show (isUpperAZ c0 && isUpperAZ c1 && isUpperAZ c2 && isUpperAZ c3 &&
        ('-' = '-' : Bool) && isDigit09 d0 && isDigit09 d1 && isDigit09 d2 &&
        isDigit09 d3) = true
  simp [hu0, hu1, hu2, hu3, hv0, hv1, hv2, hv3]

/-- Witness for claim C7's amended theorem at the concrete picks
(0,1,2,3 / 0,1,2,3). -/
theorem claim_C7_password_format_witness :
    (0 < 26 ∧ 3 < 26 ∧ 0 < 10 ∧ 3 < 10) ∧
    ((generateAccessPassword 0 1 2 3 0 1 2 3).length = 9 ∧
     passwordFormatOk (generateAccessPassword 0 1 2 3 0 1 2 3) = true) :=
  ⟨by decide,
   claim_C7_password_format 0 1 2 3 0 1 2 3 (by decide) (by decide) (by decide)
     (by decide) (by decide) (by decide) (by decide) (by decide)⟩

/-- Claim C8: the authorization decision of every role middleware is a
function of the role stored in the database for the resolved user id; the
role (and username) claims inside the bearer token are never consulted, so
two valid tokens for the same user id with different embedded roles receive
the same decision from each of the three middlewares. -/
theorem claim_C8_role_read_from_store (db : Db) (id : String)
    (un1 un2 : Option String) (r1 r2 : String) :
    bearerDecision db isAdminMw
        { id := id, username := un1, role := r1, sigValid := true } =
      bearerDecision db isAdminMw
        { id := id, username := un2, role := r2, sigValid := true } ∧
    bearerDecision db isVecinoOrAdminMw
        { id := id, username := un1, role := r1, sigValid := true } =
      bearerDecision db isVecinoOrAdminMw
        { id := id, username := un2, role := r2, sigValid := true } ∧
    bearerDecision db isGuardOrAdminMw
        { id := id, username := un1, role := r1, sigValid := true } =
      bearerDecision db isGuardOrAdminMw
        { id := id, username := un2, role := r2, sigValid := true } :=
  ⟨rfl, rfl, rfl⟩

/-- Every response produced after a successful dispatch of the validate
handler (the not-found, expired, consumed and valid outcomes) has status
200; only the missing-input guard produces a 400. -/
theorem respondQr_status_200 (db : Db) (now : Nat) (found : Option QrCode) :
    (respondQr db now found).1.status = 200 := by
  cases found with
  | none => rfl
  | some q =>
    unfold respondQr validateStateCheck
    by_cases h : validateExpiredNow now q = true
    · simp [h]
    · simp only [h, if_false, Bool.false_eq_true]
      split <;> rfl

/-- Claim C4: the validate endpoint fails with the missing-input 400 exactly
when both `password` and `code` are absent (falsy); with a password present
it looks up the trimmed, uppercased input as an access password and falls
back to the trimmed original-case input as a QR code; with only a code
present it looks up the trimmed code only, with no password fallback. -/
theorem claim_C4_validate_dispatch (db : Db) (now : Nat) (password code : Option String) :
    ((validateHandler db now password code).1.status = 400 ↔
      truthy password = false ∧ truthy code = false) ∧
    (truthy password = true →
      validateHandler db now password code =
        respondQr db now
          (match getQrCodeByPassword db ((password.getD "").trim.toUpper) with
           | some q => some q
           | none => getQrCodeByCode db ((password.getD "").trim))) ∧
    (truthy password = false → truthy code = true →
      validateHandler db now password code =
        respondQr db now (getQrCodeByCode db ((code.getD "").trim))) := by
  cases hp : truthy password with
  | true =>
    have heq : validateHandler db now password code =
        respondQr db now
          (match getQrCodeByPassword db ((password.getD "").trim.toUpper) with
           | some q => some q
           | none => getQrCodeByCode db ((password.getD "").trim)) := by
      simp only [validateHandler, hp, if_true]
    refine ⟨?_, fun _ => heq, fun hfalse => by simp [hp] at hfalse⟩
    rw [heq, respondQr_status_200]
    simp
  | false =>
    cases hc : truthy code with
    | true =>
      have heq : validateHandler db now password code =
          respondQr db now (getQrCodeByCode db ((code.getD "").trim)) := by
        simp only [validateHandler, hp, hc, if_true, Bool.false_eq_true, if_false]
      refine ⟨?_, fun htrue => by simp [hp] at htrue, fun _ _ => heq⟩
      rw [heq, respondQr_status_200]
      simp
    | false =>
      have heq : validateHandler db now password code =
          ({ status := 400, valid := none
             message := some "Password or code is required", qrId := none }, db) := by
        simp only [validateHandler, hp, hc, Bool.false_eq_true, if_false]
      refine ⟨?_, fun htrue => by simp [hp] at htrue,
        fun _ htrue => by simp [hc] at htrue⟩
      rw [heq]
      simp

/-- Witness for claim C4 at a concrete database and password input: the
trimmed, uppercased password misses, so the lookup falls back to the
trimmed original input as a code. -/
theorem claim_C4_validate_dispatch_witness :
    truthy (some " code-3 ") = true ∧
    validateHandler unusedDb 0 (some " code-3 ") none =
      respondQr unusedDb 0
        (match getQrCodeByPassword unusedDb (((some " code-3 ").getD "").trim.toUpper) with
         | some q => some q
         | none => getQrCodeByCode unusedDb (((some " code-3 ").getD "").trim)) :=
  ⟨by decide, (claim_C4_validate_dispatch unusedDb 0 (some " code-3 ") none).2.1 (by decide)⟩

/-- Claim C5, counterexample: at the concrete issue request with an empty
`visitorName` and the non-enumerated `visitorType` "zzz" the handler — which
the claim says must fail with a ValidationError — answers 200 and persists
the credential (in state `unused`). -/
theorem claim_C5_counterexample :
    (qrCodesPostHandler emptyDb "u1"
      { visitorName := some "", visitorType := some "zzz", description := none }
      "code-1" "ABCD-1234" "q1" 0).1.status = 200 ∧
    ((qrCodesPostHandler emptyDb "u1"
      { visitorName := some "", visitorType := some "zzz", description := none }
      "code-1" "ABCD-1234" "q1" 0).2.qrCodes.map
        (fun q => (q.visitorName, q.visitorType, q.isUsed))) = [("", "zzz", "unused")] := by
  decide

/-- Claim C5, amended: issue fails with a ValidationError (400, persisting
nothing) exactly when `visitorName` or `visitorType` is absent from the
request body, or `visitorType` exceeds the 50-character bound the insert
schema derives from its `varchar(50)` column; any other present string
values — the empty visitor name and visitor types outside the three
categories included — are accepted, and the credential is persisted in
state `unused`. -/
theorem claim_C5_schema_presence_only (db : Db) (userId : String) (body : QrBody)
    (code accessPassword newId : String) (now : Nat) :
    ((qrCodesPostHandler db userId body code accessPassword newId now).1.status = 200 ↔
      body.visitorName.isSome ∧ body.visitorType.isSome ∧
      (body.visitorType.getD "").length ≤ 50) ∧
    ((qrCodesPostHandler db userId body code accessPassword newId now).1.status ≠ 200 →
      (qrCodesPostHandler db userId body code accessPassword newId now).1.status = 400 ∧
      (qrCodesPostHandler db userId body code accessPassword newId now).2 = db) ∧
    (∀ qr, (qrCodesPostHandler db userId body code accessPassword newId now).1.qr = some qr →
      qr.isUsed = "unused" ∧ qr.visitorName = body.visitorName.getD "" ∧
      qr.visitorType = body.visitorType.getD "" ∧
      (qrCodesPostHandler db userId body code accessPassword newId now).2.qrCodes =
        db.qrCodes ++ [qr]) := by
  cases hn : body.visitorName with
  | none =>
    simp [qrCodesPostHandler, parseInsertQrCode, hn]
  | some n =>
    cases ht : body.visitorType with
    | none =>
      simp [qrCodesPostHandler, parseInsertQrCode, hn, ht]
    | some t =>
      by_cases hlen : t.length ≤ 50
      · refine ⟨by simp [qrCodesPostHandler, parseInsertQrCode, createQrCode, hn, ht, hlen],
          ?_, ?_⟩
        · intro hne
          exact absurd
            (by simp [qrCodesPostHandler, parseInsertQrCode, createQrCode, hn, ht, hlen]) hne
        · intro qr hqr
          simp [qrCodesPostHandler, parseInsertQrCode, createQrCode, hn, ht, hlen] at hqr
          subst hqr
          simp [qrCodesPostHandler, parseInsertQrCode, createQrCode, hn, ht, hlen]
      · simp [qrCodesPostHandler, parseInsertQrCode, hn, ht, hlen]

/-- Witness for claim C5's amended theorem: a request whose visitor fields
are present is accepted and the persisted row is `unused`. -/
theorem claim_C5_schema_presence_only_witness :
    anaQr.isUsed = "unused" ∧
    anaQr.visitorName = (some "Ana Ruiz").getD "" ∧
    anaQr.visitorType = (some "visita").getD "" ∧
    (qrCodesPostHandler emptyDb "u1"
      { visitorName := some "Ana Ruiz", visitorType := some "visita", description := none }
      "code-1" "ABCD-1234" "q1" 0).2.qrCodes = emptyDb.qrCodes ++ [anaQr] :=
  (claim_C5_schema_presence_only emptyDb "u1"
    { visitorName := some "Ana Ruiz", visitorType := some "visita", description := none }
    "code-1" "ABCD-1234" "q1" 0).2.2 anaQr (by decide)

set_option maxRecDepth 16384 in
/-- Claim C6, counterexample: on the concrete store holding only the account
"alice" (hash of "secret"), the failed login for the non-existent handle
"bob" and the failed login for "alice" with the wrong password both return
401 but carry different messages — "Usuario no encontrado" versus
"Contraseña incorrecta" — so the two runs are distinguishable, against the
claim's generic-message indistinguishability. -/
theorem claim_C6_counterexample :
    (loginLocalHandler loginDb "bob" "whatever").status = 401 ∧
    (loginLocalHandler loginDb "alice" "wrong").status = 401 ∧
    (loginLocalHandler loginDb "bob" "whatever").message ≠
      (loginLocalHandler loginDb "alice" "wrong").message := by
  decide

/-- Claim C6, amended: every failed local login returns 401, but the message
identifies the failure: a non-existent handle yields "Usuario no
encontrado" while an existing handle with a wrong password yields
"Contraseña incorrecta" — the two runs are not indistinguishable. -/
theorem claim_C6_distinct_failure_messages (db : Db) (username password : String) :
    (getUserByUsername db username = none →
      loginLocalHandler db username password =
        { status := 401, message := some "Usuario no encontrado", token := none }) ∧
    (∀ user stored, getUserByUsername db username = some user →
      user.passwordHash = some stored → sha256hex password ≠ stored →
      loginLocalHandler db username password =
        { status := 401, message := some "Contraseña incorrecta", token := none }) := by
  constructor
  · intro h
    simp [loginLocalHandler, localVerify, h]
  · intro user stored hu hh hne
    simp [loginLocalHandler, localVerify, hu, hh, hne]

/-- Witness for claim C6's amended theorem: the non-existent handle case on
the concrete store. -/
theorem claim_C6_distinct_failure_messages_witness :
    getUserByUsername loginDb "bob" = none ∧
    loginLocalHandler loginDb "bob" "x" =
      { status := 401, message := some "Usuario no encontrado", token := none } :=
  ⟨rfl, (claim_C6_distinct_failure_messages loginDb "bob" "x").1 rfl⟩

/-- Claim C9: `POST /api/users/create` runs no authentication middleware —
its decision is a function of the body and the `ADMIN_PASSWORD` environment
variable only. Under a set, non-empty `ADMIN_PASSWORD`, it answers 200 and
persists the user exactly when the body's `adminPassword` equals the
environment variable, the five fields are all present (truthy), the role is
one of the three enumerated roles, and the username is not yet taken;
otherwise it answers 401 or 400 and leaves the store unchanged. -/
theorem claim_C9_users_create_gate (db : Db) (env : Option String)
    (body : CreateUserBody) (newId : String) (henv : truthy env = true) :
    ((usersCreateHandler db env body newId).1.status = 200 ↔
      (body.adminPassword = env ∧ truthy body.username = true ∧
       truthy body.firstName = true ∧ truthy body.lastName = true ∧
       truthy body.password = true ∧
       (body.role = some "vecino" ∨ body.role = some "guardia" ∨
        body.role = some "administrador") ∧
       getUserByUsername db (body.username.getD "") = none)) ∧
    ((usersCreateHandler db env body newId).1.status ≠ 200 →
      ((usersCreateHandler db env body newId).1.status = 401 ∨
       (usersCreateHandler db env body newId).1.status = 400) ∧
      (usersCreateHandler db env body newId).2 = db) ∧
    ((usersCreateHandler db env body newId).1.status = 200 →
      ∃ u, (usersCreateHandler db env body newId).2.users = db.users ++ [u] ∧
        u.username = body.username ∧ u.role = body.role.getD "" ∧
        u.passwordHash = some (sha256hex (body.password.getD ""))) := by
  by_cases hgate : ¬ truthy body.adminPassword = true ∨ body.adminPassword ≠ env
  · have hne : ¬ body.adminPassword = env := by
      rcases hgate with h | h
      · intro hEq
        rw [hEq] at h
        exact h henv
      · exact h
    have hrun : usersCreateHandler db env body newId =
        ({ status := 401, createdId := none }, db) := by
      unfold usersCreateHandler
      rw [if_pos]
      rcases hgate with h | h
      · exact Or.inl (by simpa using h)
      · exact Or.inr h
    rw [hrun]
    refine ⟨?_, fun _ => ⟨Or.inl rfl, rfl⟩, fun h => by simp at h⟩
    constructor
    · intro h
      simp at h
    · rintro ⟨hEq, -⟩
      exact absurd hEq hne
  · push_neg at hgate
    obtain ⟨hap, hapEq⟩ := hgate
    by_cases hfields : truthy body.username = true ∧ truthy body.firstName = true ∧
        truthy body.lastName = true ∧ truthy body.password = true ∧
        truthy body.role = true
    · by_cases hrole : body.role = some "vecino" ∨ body.role = some "guardia" ∨
          body.role = some "administrador"
      · cases hfind : getUserByUsername db (body.username.getD "") with
        | some u0 =>
          have hrun : usersCreateHandler db env body newId =
              ({ status := 400, createdId := none }, db) := by
            unfold usersCreateHandler
            rw [if_neg (by push_neg; exact ⟨hap, hapEq⟩),
              if_neg (not_not_intro hfields), if_neg (not_not_intro hrole), hfind]
          rw [hrun]
          refine ⟨?_, fun _ => ⟨Or.inr rfl, rfl⟩, fun h => by simp at h⟩
          constructor
          · intro h
            simp at h
          · rintro ⟨-, -, -, -, -, -, hnone⟩
            exact Option.noConfusion hnone
        | none =>
          have hrun : usersCreateHandler db env body newId =
              ({ status := 200, createdId := some newId },
               { db with users := db.users ++
                  [{ id := newId, username := some (body.username.getD "")
                     firstName := some (body.firstName.getD "")
                     lastName := some (body.lastName.getD "")
                     passwordHash := some (sha256hex (body.password.getD ""))
                     role := body.role.getD "" }] }) := by
            unfold usersCreateHandler
            rw [if_neg (by push_neg; exact ⟨hap, hapEq⟩),
              if_neg (not_not_intro hfields), if_neg (not_not_intro hrole), hfind]
            rfl
          rw [hrun]
          refine ⟨?_, fun h => absurd rfl h, fun _ => ?_⟩
          · exact iff_of_true rfl ⟨hapEq, hfields.1, hfields.2.1, hfields.2.2.1,
              hfields.2.2.2.1, hrole, rfl⟩
          · refine ⟨_, rfl, ?_, rfl, rfl⟩
            have : truthy body.username = true := hfields.1
            cases hbu : body.username with
            | none => rw [hbu] at this; simp [truthy] at this
            | some s => simp [hbu]
      · have hrun : usersCreateHandler db env body newId =
            ({ status := 400, createdId := none }, db) := by
          unfold usersCreateHandler
          rw [if_neg (by push_neg; exact ⟨hap, hapEq⟩),
            if_neg (not_not_intro hfields), if_pos hrole]
        rw [hrun]
        refine ⟨?_, fun _ => ⟨Or.inr rfl, rfl⟩, fun h => by simp at h⟩
        constructor
        · intro h
          simp at h
        · rintro ⟨-, -, -, -, -, hr, -⟩
          exact absurd hr hrole
    · have hrun : usersCreateHandler db env body newId =
          ({ status := 400, createdId := none }, db) := by
        unfold usersCreateHandler
        rw [if_neg (by push_neg; exact ⟨hap, hapEq⟩), if_pos hfields]
      rw [hrun]
      refine ⟨?_, fun _ => ⟨Or.inr rfl, rfl⟩, fun h => by simp at h⟩
      constructor
      · intro h
        simp at h
      · rintro ⟨-, h1, h2, h3, h4, hr, -⟩
        have h5 : truthy body.role = true := by
          rcases hr with h | h | h <;> simp [h, truthy]
        exact absurd ⟨h1, h2, h3, h4, h5⟩ hfields

/-- Witness for claim C9 on the empty store with a matching admin password
and a complete body. -/
theorem claim_C9_users_create_gate_witness :
    truthy (some "adm-pw") = true ∧
    ((usersCreateHandler emptyDb (some "adm-pw")
      { username := some "maria", firstName := some "Maria", lastName := some "L"
        password := some "pw1", adminPassword := some "adm-pw", role := some "guardia" }
      "u9").1.status = 200 ↔
      ((some "adm-pw" : Option String) = some "adm-pw" ∧ truthy (some "maria") = true ∧
       truthy (some "Maria") = true ∧ truthy (some "L") = true ∧
       truthy (some "pw1") = true ∧
       ((some "guardia" : Option String) = some "vecino" ∨
        (some "guardia" : Option String) = some "guardia" ∨
        (some "guardia" : Option String) = some "administrador") ∧
       getUserByUsername emptyDb ((some "maria").getD "") = none)) :=
  ⟨by decide,
   (claim_C9_users_create_gate emptyDb (some "adm-pw")
     { username := some "maria", firstName := some "Maria", lastName := some "L"
       password := some "pw1", adminPassword := some "adm-pw", role := some "guardia" }
     "u9" (by decide)).1⟩

/-- Claim C10: local passwords are stored as unsalted SHA-256 hex digests —
`createLocalUser` stores `sha256(password)`, `resetUserPassword` rewrites
the row to `sha256(newPassword)`, local login succeeds exactly when the
submitted password hashes to the stored digest, and two accounts created
with the same password store identical hashes. -/
theorem claim_C10_unsalted_sha256 (db db2 : Db)
    (username firstName lastName password role newId : String)
    (un2 fn2 ln2 role2 id2 uid npw : String) :
    ((createLocalUser db username firstName lastName password role newId).1.passwordHash =
      some (sha256hex password)) ∧
    (∀ u, u ∈ (resetUserPassword db uid npw).2.users → u.id = uid →
      u.passwordHash = some (sha256hex npw)) ∧
    ((loginLocalHandler db username password).status = 200 ↔
      ∃ user, getUserByUsername db username = some user ∧
        user.passwordHash = some (sha256hex password)) ∧
    ((createLocalUser db username firstName lastName password role newId).1.passwordHash =
      (createLocalUser db2 un2 fn2 ln2 password role2 id2).1.passwordHash) := by
  refine ⟨rfl, ?_, ?_, rfl⟩
  · intro u hu hid
    simp only [resetUserPassword, List.mem_map] at hu
    obtain ⟨orig, _, horig⟩ := hu
    by_cases h : orig.id = uid
    · rw [if_pos h] at horig
      rw [← horig]
    · rw [if_neg h] at horig
      rw [← horig] at hid
      exact absurd hid h
  · cases hfind : getUserByUsername db username with
    | none =>
      have hrun : loginLocalHandler db username password =
          { status := 401, message := some "Usuario no encontrado", token := none } := by
        simp [loginLocalHandler, localVerify, hfind]
      rw [hrun]
      constructor
      · intro h
        simp at h
      · rintro ⟨u2, hu2, -⟩
        exact Option.noConfusion hu2
    | some user =>
      cases hph : user.passwordHash with
      | none =>
        have hrun : loginLocalHandler db username password =
            { status := 401, message := some "Usuario no válido", token := none } := by
          simp [loginLocalHandler, localVerify, hfind, hph]
        rw [hrun]
        constructor
        · intro h
          simp at h
        · rintro ⟨u2, hu2, hph2⟩
          rw [Option.some_inj] at hu2
          subst hu2
          rw [hph] at hph2
          exact Option.noConfusion hph2
      | some stored =>
        by_cases hEq : sha256hex password = stored
        · have hrun : loginLocalHandler db username password =
              { status := 200, message := none
                token := some (generateJWT user.id user.username user.role) } := by
            simp [loginLocalHandler, localVerify, hfind, hph, hEq]
          rw [hrun]
          exact iff_of_true rfl ⟨user, rfl, by rw [hph, hEq]⟩
        · have hrun : loginLocalHandler db username password =
              { status := 401, message := some "Contraseña incorrecta", token := none } := by
            simp [loginLocalHandler, localVerify, hfind, hph, hEq]
          rw [hrun]
          constructor
          · intro h
            simp at h
          · rintro ⟨u2, hu2, hph2⟩
            rw [Option.some_inj] at hu2
            subst hu2
            rw [hph, Option.some_inj] at hph2
            exact absurd hph2.symm hEq

/-- Witness for claim C10: on the concrete store, logging in as "alice" with
the password whose digest is stored succeeds. -/
theorem claim_C10_unsalted_sha256_witness :
    (loginLocalHandler loginDb "alice" "secret").status = 200 :=
  (claim_C10_unsalted_sha256 loginDb loginDb "alice" "" "" "secret" "" ""
    "" "" "" "" "" "" "").2.2.1.mpr ⟨aliceUser, rfl, rfl⟩

end Zendala





